import Mathlib

/-
Verification of the conflict-detection and replacement-matching engine of the
Skylark drone-operations coordination service.

The embedding below follows the two service modules that hold the domain
logic:

  app/services/conflict_service.py  (ConflictDetectionService)
  app/services/agent_service.py     (candidate ranking inside
                                     _find_replacement_pilot and
                                     _find_replacement_drone)

Modelling conventions:

* Calendar dates that arrive already parsed (pilot and drone assignment
  windows, drone maintenance dates) are encoded as natural numbers
  y * 10000 + m * 100 + d, so that the Nat order coincides with
  chronological order.  The engine only ever compares dates.
* Project records are the dict-shaped values produced by
  _parse_project_row: their start_date and end_date fields hold either an
  ISO date string or None (the parse layer stores None for a malformed
  date).  The detectors re-parse these strings with
  datetime.strptime(value, "%Y-%m-%d"), which raises on None and on a
  string that is not a valid ISO date.  Detectors that contain such a
  call are therefore embedded with result type Option (List Conflict):
  none models the Python exception escaping the detector, some cs models
  normal completion with the list cs.
* Pydantic models are declared with use_enum_values = True, so status and
  skill fields are plain strings at run time; they are Strings here and
  are compared against the literal enum values, exactly as the source
  compares them.
* Python truthiness tests on optional strings (if not pilot.current_assignment)
  treat both None and the empty string as false; strFalsy captures this.
* The generated conflict id (a fresh uuid), the prose description, the
  detection timestamp and the resolved flag carry no detection logic and
  are not consulted by any rule, so the Conflict record here keeps only
  the typed fields the rules actually set and read: type, severity and
  the affected-entity references.
-/

namespace Skylark

/-- Lowercase mapping of a single character, as Python str.lower acts on
ASCII letters. -/
def lowerChar (c : Char) : Char :=
  if 'A' ≤ c && c ≤ 'Z' then Char.ofNat (c.toNat + 32) else c

/-- Lowercased character list of a string; stands for the Python idiom
s.lower() wherever the source only compares the lowered strings. -/
def lowerStr (s : String) : List Char := s.data.map lowerChar

/-- Truthiness of an optional string in Python: None and the empty string
are falsy. -/
def strFalsy : Option String → Bool
  | none => true
  | some s => s == ""

/-- Comma-and-space join, as str.join does in the issue messages. -/
def joinComma : List String → String
  | [] => ""
  | [x] => x
  | x :: xs => x ++ ", " ++ joinComma xs

/-- Position of the first occurrence of x, as Python list.index returns it
for an element known to be present. -/
def listIndex : List String → String → Nat
  | [], _ => 0
  | y :: ys, x => if y == x then 0 else listIndex ys x + 1

/-- Decimal digit test for a character. -/
def isDigitC (c : Char) : Bool := '0' ≤ c && c ≤ '9'

/-- Numeric value of a decimal digit character. -/
def digitVal (c : Char) : Nat := c.toNat - '0'.toNat

/-- Day count of a month in the proleptic Gregorian calendar, as the
Python datetime module validates component ranges. -/
def daysInMonth (y m : Nat) : Nat :=
  if m == 2 then (if (y % 4 == 0 && y % 100 != 0) || y % 400 == 0 then 29 else 28)
  else if m == 4 || m == 6 || m == 9 || m == 11 then 30 else 31

/-- Embedding of datetime.strptime(value, "%Y-%m-%d").date() on the
zero-padded ISO strings that date.isoformat produced upstream: a valid
YYYY-MM-DD string yields the encoded date, anything else yields none
(the ValueError the Python call raises). -/
def parseIsoDate (s : String) : Option Nat :=
  match s.data with
  | [y1, y2, y3, y4, h1, m1, m2, h2, d1, d2] =>
    if isDigitC y1 && isDigitC y2 && isDigitC y3 && isDigitC y4 && h1 == '-'
        && isDigitC m1 && isDigitC m2 && h2 == '-' && isDigitC d1 && isDigitC d2 then
      let y := ((digitVal y1 * 10 + digitVal y2) * 10 + digitVal y3) * 10 + digitVal y4
      let m := digitVal m1 * 10 + digitVal m2
      let d := digitVal d1 * 10 + digitVal d2
      if 1 ≤ m && m ≤ 12 && 1 ≤ d && d ≤ daysInMonth y m then
        some (y * 10000 + m * 100 + d)
      else none
    else none
  | _ => none

/-- Re-parse of a stored project date field: strptime raises TypeError on
None and ValueError on an unparseable string, both modelled as none. -/
def strptimeField : Option String → Option Nat
  | none => none
  | some s => parseIsoDate s

/-- Left-to-right concatenating traversal in the Option monad; none models
an exception escaping a Python for-loop before later iterations run. -/
def optFlatMap {α β : Type} (f : α → Option (List β)) : List α → Option (List β)
  | [] => some []
  | x :: xs =>
    match f x with
    | none => none
    | some ys =>
      match optFlatMap f xs with
      | none => none
      | some zs => some (ys ++ zs)

/-- Pilot record (app/models/schemas.py, class Pilot), restricted to the
fields the engine reads. -/
structure Pilot where
  id : String
  name : String
  skill_level : String
  certifications : List String
  current_location : String
  current_assignment : Option String := none
  assignment_start_date : Option Nat := none
  assignment_end_date : Option Nat := none
  status : String := "Available"
deriving DecidableEq

/-- Drone record (app/models/schemas.py, class Drone), restricted to the
fields the engine reads. -/
structure Drone where
  id : String
  serial_number : String
  model : String
  capabilities : List String
  current_assignment : Option String := none
  assignment_start_date : Option Nat := none
  assignment_end_date : Option Nat := none
  status : String := "Available"
  current_location : String
  next_maintenance_date : Option Nat := none
deriving DecidableEq

/-- Project record as the dict produced by _parse_project_row: date fields
hold an ISO string or None, the skill requirement is an optional string. -/
structure Project where
  id : String
  name : String
  location : String
  start_date : Option String := none
  end_date : Option String := none
  required_certifications : List String := []
  required_capabilities : List String := []
  required_skill_level : Option String := none
  assigned_pilots : List String := []
  assigned_drones : List String := []
deriving DecidableEq

/-- Seven conflict kinds (app/models/schemas.py, class ConflictType). -/
inductive ConflictType where
  | DOUBLE_BOOKING_PILOT
  | DOUBLE_BOOKING_DRONE
  | CERTIFICATION_MISMATCH
  | SKILL_MISMATCH
  | LOCATION_MISMATCH
  | DRONE_MAINTENANCE
  | CAPABILITY_MISMATCH
deriving DecidableEq

/-- Conflict record (app/models/schemas.py, class Conflict), keeping the
fields the detectors set; id, description, timestamp and resolved carry
no rule logic. -/
structure Conflict where
  conflict_type : ConflictType
  severity : String
  affected_pilot_id : Option String := none
  affected_pilot_name : Option String := none
  affected_drone_id : Option String := none
  affected_drone_serial : Option String := none
  affected_project_id : Option String := none
  affected_project_name : Option String := none
deriving DecidableEq

/-- Skill ladder (ConflictDetectionService.skill_order). -/
def skill_order : List String := ["Beginner", "Intermediate", "Advanced", "Expert"]

/-- The idiom skill_order.index(s) if s in skill_order else 0, used for both
pilot and required skill levels. -/
def skillIdx (s : String) : Nat :=
  if skill_order.contains s then listIndex skill_order s else 0

/-- Overlap evaluator _dates_overlap: closed intervals intersect. -/
def dates_overlap (start1 end1 start2 end2 : Nat) : Bool :=
  start1 ≤ end2 && end1 ≥ start2

/-- Body of the project loop of _detect_pilot_double_bookings for one pilot
with truthy assignment name a and dates s, e: skip the project matching the
recorded assignment, otherwise re-parse the project window and compare. -/
def pilotProjectDB (p : Pilot) (a : String) (s e : Nat) (proj : Project) :
    Option (List Conflict) :=
  if proj.name == a then some []
  else if proj.assigned_pilots.contains p.id then
    match strptimeField proj.start_date, strptimeField proj.end_date with
    | some ps, some pe =>
      if dates_overlap s e ps pe then
        some [{ conflict_type := ConflictType.DOUBLE_BOOKING_PILOT,
                severity := "Critical",
                affected_pilot_id := some p.id,
                affected_pilot_name := some p.name,
                affected_project_id := some proj.id,
                affected_project_name := some proj.name }]
      else some []
    | _, _ => none
  else some []

/-- Per-pilot part of _detect_pilot_double_bookings: pilots lacking a truthy
assignment name or either window date are skipped. -/
def pilotDoubleBookings (projects : List Project) (p : Pilot) :
    Option (List Conflict) :=
  match p.current_assignment, p.assignment_start_date, p.assignment_end_date with
  | some a, some s, some e =>
    if a == "" then some [] else optFlatMap (pilotProjectDB p a s e) projects
  | _, _, _ => some []

/-- Rule 1, _detect_pilot_double_bookings. -/
def detect_pilot_double_bookings (pilots : List Pilot) (projects : List Project) :
    Option (List Conflict) :=
  optFlatMap (pilotDoubleBookings projects) pilots

/-- Body of the project loop of _detect_drone_double_bookings. -/
def droneProjectDB (d : Drone) (a : String) (s e : Nat) (proj : Project) :
    Option (List Conflict) :=
  if proj.name == a then some []
  else if proj.assigned_drones.contains d.id then
    match strptimeField proj.start_date, strptimeField proj.end_date with
    | some ps, some pe =>
      if dates_overlap s e ps pe then
        some [{ conflict_type := ConflictType.DOUBLE_BOOKING_DRONE,
                severity := "Critical",
                affected_drone_id := some d.id,
                affected_drone_serial := some d.serial_number,
                affected_project_id := some proj.id,
                affected_project_name := some proj.name }]
      else some []
    | _, _ => none
  else some []

/-- Per-drone part of _detect_drone_double_bookings. -/
def droneDoubleBookings (projects : List Project) (d : Drone) :
    Option (List Conflict) :=
  match d.current_assignment, d.assignment_start_date, d.assignment_end_date with
  | some a, some s, some e =>
    if a == "" then some [] else optFlatMap (droneProjectDB d a s e) projects
  | _, _, _ => some []

/-- Rule 2, _detect_drone_double_bookings. -/
def detect_drone_double_bookings (drones : List Drone) (projects : List Project) :
    Option (List Conflict) :=
  optFlatMap (droneDoubleBookings projects) drones

/-- Per-project part of _detect_certification_mismatches. -/
def certConflictsForProject (pilots : List Pilot) (proj : Project) : List Conflict :=
  if proj.required_certifications.isEmpty then []
  else
    proj.assigned_pilots.flatMap fun pid =>
      match pilots.find? (fun p => p.id == pid) with
      | none => []
      | some p =>
        let missing := proj.required_certifications.filter
          (fun c => !(p.certifications.contains c))
        if missing.isEmpty then []
        else [{ conflict_type := ConflictType.CERTIFICATION_MISMATCH,
                severity := "High",
                affected_pilot_id := some p.id,
                affected_pilot_name := some p.name,
                affected_project_id := some proj.id,
                affected_project_name := some proj.name }]

/-- Rule 3, _detect_certification_mismatches. -/
def detect_certification_mismatches (pilots : List Pilot) (projects : List Project) :
    List Conflict :=
  projects.flatMap (certConflictsForProject pilots)

/-- Per-project part of _detect_skill_mismatches: a falsy required skill
level skips the project; unknown level strings rank 0. -/
def skillConflictsForProject (pilots : List Pilot) (proj : Project) : List Conflict :=
  match proj.required_skill_level with
  | none => []
  | some rs =>
    if rs == "" then []
    else
      proj.assigned_pilots.flatMap fun pid =>
        match pilots.find? (fun p => p.id == pid) with
        | none => []
        | some p =>
          if skillIdx p.skill_level < skillIdx rs then
            [{ conflict_type := ConflictType.SKILL_MISMATCH,
               severity := "Medium",
               affected_pilot_id := some p.id,
               affected_pilot_name := some p.name,
               affected_project_id := some proj.id,
               affected_project_name := some proj.name }]
          else []

/-- Rule 4, _detect_skill_mismatches. -/
def detect_skill_mismatches (pilots : List Pilot) (projects : List Project) :
    List Conflict :=
  projects.flatMap (skillConflictsForProject pilots)

/-- First sub-check of _detect_location_mismatches: assigned pilot versus
project location, compared lowercased. -/
def pilotLocChecks (pilots : List Pilot) (proj : Project) : List Conflict :=
  proj.assigned_pilots.flatMap fun pid =>
    match pilots.find? (fun p => p.id == pid) with
    | none => []
    | some p =>
      if lowerStr p.current_location ≠ lowerStr proj.location then
        [{ conflict_type := ConflictType.LOCATION_MISMATCH,
           severity := "Medium",
           affected_pilot_id := some p.id,
           affected_pilot_name := some p.name,
           affected_project_id := some proj.id,
           affected_project_name := some proj.name }]
      else []

/-- Second sub-check of _detect_location_mismatches: assigned drone versus
project location. -/
def droneLocChecks (drones : List Drone) (proj : Project) : List Conflict :=
  proj.assigned_drones.flatMap fun did =>
    match drones.find? (fun d => d.id == did) with
    | none => []
    | some d =>
      if lowerStr d.current_location ≠ lowerStr proj.location then
        [{ conflict_type := ConflictType.LOCATION_MISMATCH,
           severity := "Medium",
           affected_drone_id := some d.id,
           affected_drone_serial := some d.serial_number,
           affected_project_id := some proj.id,
           affected_project_name := some proj.name }]
      else []

/-- Third sub-check of _detect_location_mismatches: each assigned pilot
against each assigned drone of the same project. -/
def pairLocChecks (pilots : List Pilot) (drones : List Drone) (proj : Project) :
    List Conflict :=
  proj.assigned_pilots.flatMap fun pid =>
    match pilots.find? (fun p => p.id == pid) with
    | none => []
    | some p =>
      proj.assigned_drones.flatMap fun did =>
        match drones.find? (fun d => d.id == did) with
        | none => []
        | some d =>
          if lowerStr p.current_location ≠ lowerStr d.current_location then
            [{ conflict_type := ConflictType.LOCATION_MISMATCH,
               severity := "High",
               affected_pilot_id := some p.id,
               affected_pilot_name := some p.name,
               affected_drone_id := some d.id,
               affected_drone_serial := some d.serial_number,
               affected_project_id := some proj.id,
               affected_project_name := some proj.name }]
          else []

/-- Per-project body of _detect_location_mismatches, in source order. -/
def locationConflictsForProject (pilots : List Pilot) (drones : List Drone)
    (proj : Project) : List Conflict :=
  pilotLocChecks pilots proj ++ droneLocChecks drones proj
    ++ pairLocChecks pilots drones proj

/-- Rule 5, _detect_location_mismatches. -/
def detect_location_mismatches (pilots : List Pilot) (drones : List Drone)
    (projects : List Project) : List Conflict :=
  projects.flatMap (locationConflictsForProject pilots drones)

/-- Body of the assigned-drone loop of _detect_drone_maintenance_conflicts:
a missing drone reference is skipped; a drone in Maintenance status yields a
Critical conflict; a scheduled maintenance date inside the re-parsed project
window additionally yields a Medium conflict. -/
def droneMaintCheck (drones : List Drone) (proj : Project) (did : String) :
    Option (List Conflict) :=
  match drones.find? (fun d => d.id == did) with
  | none => some []
  | some d =>
    let crit : List Conflict :=
      if d.status == "Maintenance" then
        [{ conflict_type := ConflictType.DRONE_MAINTENANCE,
           severity := "Critical",
           affected_drone_id := some d.id,
           affected_drone_serial := some d.serial_number,
           affected_project_id := some proj.id,
           affected_project_name := some proj.name }]
      else []
    match d.next_maintenance_date with
    | none => some crit
    | some m =>
      match strptimeField proj.start_date, strptimeField proj.end_date with
      | some ps, some pe =>
        if ps ≤ m && m ≤ pe then
          some (crit ++
            [{ conflict_type := ConflictType.DRONE_MAINTENANCE,
               severity := "Medium",
               affected_drone_id := some d.id,
               affected_drone_serial := some d.serial_number,
               affected_project_id := some proj.id,
               affected_project_name := some proj.name }])
        else some crit
      | _, _ => none

/-- Rule 6, _detect_drone_maintenance_conflicts. -/
def detect_drone_maintenance_conflicts (drones : List Drone)
    (projects : List Project) : Option (List Conflict) :=
  optFlatMap (fun proj => optFlatMap (droneMaintCheck drones proj) proj.assigned_drones)
    projects

/-- Per-project part of _detect_capability_mismatches. -/
def capConflictsForProject (drones : List Drone) (proj : Project) : List Conflict :=
  if proj.required_capabilities.isEmpty then []
  else
    proj.assigned_drones.flatMap fun did =>
      match drones.find? (fun d => d.id == did) with
      | none => []
      | some d =>
        let missing := proj.required_capabilities.filter
          (fun c => !(d.capabilities.contains c))
        if missing.isEmpty then []
        else [{ conflict_type := ConflictType.CAPABILITY_MISMATCH,
                severity := "High",
                affected_drone_id := some d.id,
                affected_drone_serial := some d.serial_number,
                affected_project_id := some proj.id,
                affected_project_name := some proj.name }]

/-- Rule 7, _detect_capability_mismatches. -/
def detect_capability_mismatches (drones : List Drone) (projects : List Project) :
    List Conflict :=
  projects.flatMap (capConflictsForProject drones)

/-- Full sweep detect_all_conflicts, concatenating the seven rules in source
order; an exception raised inside any rule aborts the whole call. -/
def detect_all_conflicts (pilots : List Pilot) (drones : List Drone)
    (projects : List Project) : Option (List Conflict) := do
  let c1 ← detect_pilot_double_bookings pilots projects
  let c2 ← detect_drone_double_bookings drones projects
  let c3 := detect_certification_mismatches pilots projects
  let c4 := detect_skill_mismatches pilots projects
  let c5 := detect_location_mismatches pilots drones projects
  let c6 ← detect_drone_maintenance_conflicts drones projects
  let c7 := detect_capability_mismatches drones projects
  return c1 ++ c2 ++ c3 ++ c4 ++ c5 ++ c6 ++ c7

/-- Ranked pilot candidate entry, the dict appended in
_find_replacement_pilot. -/
structure PilotCandidate where
  pilot : Pilot
  score : Nat
  issues : List String
  recommended : Bool
deriving DecidableEq

/-- Scoring body of the pool loop of _find_replacement_pilot: certification
component, skill component, location component and the skill-rank tie-break
bonus, with the issue messages built alongside. -/
def scorePilotCandidate (required_certs : List String) (required_skill : String)
    (preferred_location : Option String) (p : Pilot) : PilotCandidate :=
  let required_skill_idx := skillIdx required_skill
  let missing_certs := required_certs.filter (fun c => !(p.certifications.contains c))
  let score1 : Nat := if missing_certs.isEmpty then 30 else 0
  let issues1 : List String :=
    if missing_certs.isEmpty then []
    else ["Missing certs: " ++ joinComma missing_certs]
  let pilot_skill_idx := skillIdx p.skill_level
  let score2 : Nat := if required_skill_idx ≤ pilot_skill_idx then 25 else 0
  let issues2 : List String :=
    if required_skill_idx ≤ pilot_skill_idx then []
    else ["Skill level " ++ p.skill_level ++ " below required " ++ required_skill]
  let locGiven := !(strFalsy preferred_location)
  let locMatch := lowerStr p.current_location == lowerStr (preferred_location.getD "")
  let score3 : Nat := if locGiven && locMatch then 25 else 0
  let issues3 : List String :=
    if locGiven && !locMatch then
      ["In " ++ p.current_location ++ ", not " ++ preferred_location.getD ""]
    else []
  { pilot := p,
    score := score1 + score2 + score3 + pilot_skill_idx * 5,
    issues := issues1 ++ issues2 ++ issues3,
    recommended := (issues1 ++ issues2 ++ issues3).isEmpty }

/-- Pool filter of _find_replacement_pilot: drop the excluded id, keep only
Available pilots. -/
def pilotKeep (exclude_pilot_id : Option String) (p : Pilot) : Bool :=
  (match exclude_pilot_id with
   | some e => !(p.id == e)
   | none => true) && p.status == "Available"

/-- Candidate list of _find_replacement_pilot before sorting, in pool
order. -/
def pilotCandidateList (required_certs : List String) (required_skill : String)
    (preferred_location exclude_pilot_id : Option String) (pool : List Pilot) :
    List PilotCandidate :=
  (pool.filter (pilotKeep exclude_pilot_id)).map
    (scorePilotCandidate required_certs required_skill preferred_location)

/-- Descending-score comparison used as the stable sort order; the Python
candidates.sort with a score key and reverse=True is a stable sort under
exactly this relation. -/
def pilotCandLE (a b : PilotCandidate) : Bool := b.score ≤ a.score

/-- Ranked, truncated output of _find_replacement_pilot: stable descending
sort on score, then the first five entries. -/
def rankPilotCandidates (required_certs : List String) (required_skill : String)
    (preferred_location exclude_pilot_id : Option String) (pool : List Pilot) :
    List PilotCandidate :=
  ((pilotCandidateList required_certs required_skill preferred_location
      exclude_pilot_id pool).mergeSort pilotCandLE).take 5

/-- Ranked drone candidate entry, the dict appended in
_find_replacement_drone. -/
structure DroneCandidate where
  drone : Drone
  score : Nat
  issues : List String
  recommended : Bool
deriving DecidableEq

/-- Scoring body of the pool loop of _find_replacement_drone: capability
component, location component and the capability-count tie-break bonus. -/
def scoreDroneCandidate (required_caps : List String)
    (preferred_location : Option String) (d : Drone) : DroneCandidate :=
  let missing_caps := required_caps.filter (fun c => !(d.capabilities.contains c))
  let score1 : Nat := if missing_caps.isEmpty then 40 else 0
  let issues1 : List String :=
    if missing_caps.isEmpty then []
    else ["Missing capabilities: " ++ joinComma missing_caps]
  let locGiven := !(strFalsy preferred_location)
  let locMatch := lowerStr d.current_location == lowerStr (preferred_location.getD "")
  let score2 : Nat := if locGiven && locMatch then 30 else 0
  let issues2 : List String :=
    if locGiven && !locMatch then
      ["In " ++ d.current_location ++ ", not " ++ preferred_location.getD ""]
    else []
  { drone := d,
    score := score1 + score2 + d.capabilities.length * 2,
    issues := issues1 ++ issues2,
    recommended := (issues1 ++ issues2).isEmpty }

/-- Pool filter of _find_replacement_drone. -/
def droneKeep (exclude_drone_id : Option String) (d : Drone) : Bool :=
  (match exclude_drone_id with
   | some e => !(d.id == e)
   | none => true) && d.status == "Available"

/-- Candidate list of _find_replacement_drone before sorting. -/
def droneCandidateList (required_caps : List String)
    (preferred_location exclude_drone_id : Option String) (pool : List Drone) :
    List DroneCandidate :=
  (pool.filter (droneKeep exclude_drone_id)).map
    (scoreDroneCandidate required_caps preferred_location)

/-- Descending-score comparison for drone candidates. -/
def droneCandLE (a b : DroneCandidate) : Bool := b.score ≤ a.score

/-- Ranked, truncated output of _find_replacement_drone. -/
def rankDroneCandidates (required_caps : List String)
    (preferred_location exclude_drone_id : Option String) (pool : List Drone) :
    List DroneCandidate :=
  ((droneCandidateList required_caps preferred_location exclude_drone_id
      pool).mergeSort droneCandLE).take 5

/-- Pilot half of check_assignment_conflicts: runs only when a truthy
pilot_id resolves to a pilot record, then performs the on-leave, overlap,
certification, skill and location checks in source order. -/
def pilotAssignmentChecks (pilots : List Pilot) (pilot_id : Option String)
    (project_id : String) (start_date end_date : Nat)
    (required_certs : List String) (required_skill : String)
    (location : String) : List Conflict :=
  match pilot_id with
  | none => []
  | some pid =>
    if pid == "" then []
    else
      match pilots.find? (fun p => p.id == pid) with
      | none => []
      | some p =>
        (if p.status == "On Leave" then
          [{ conflict_type := ConflictType.DOUBLE_BOOKING_PILOT,
             severity := "Critical",
             affected_pilot_id := some p.id,
             affected_pilot_name := some p.name,
             affected_project_id := some project_id }]
        else [])
        ++ (match p.assignment_start_date, p.assignment_end_date with
            | some s, some e =>
              if dates_overlap s e start_date end_date then
                [{ conflict_type := ConflictType.DOUBLE_BOOKING_PILOT,
                   severity := "Critical",
                   affected_pilot_id := some p.id,
                   affected_pilot_name := some p.name,
                   affected_project_id := some project_id }]
              else []
            | _, _ => [])
        ++ (let missing := required_certs.filter (fun c => !(p.certifications.contains c))
            if missing.isEmpty then []
            else
              [{ conflict_type := ConflictType.CERTIFICATION_MISMATCH,
                 severity := "High",
                 affected_pilot_id := some p.id,
                 affected_pilot_name := some p.name,
                 affected_project_id := some project_id }])
        ++ (if skill_order.contains required_skill then
              if skillIdx p.skill_level < listIndex skill_order required_skill then
                [{ conflict_type := ConflictType.SKILL_MISMATCH,
                   severity := "Medium",
                   affected_pilot_id := some p.id,
                   affected_pilot_name := some p.name,
                   affected_project_id := some project_id }]
              else []
            else [])
        ++ (if location ≠ "" && lowerStr p.current_location ≠ lowerStr location then
              [{ conflict_type := ConflictType.LOCATION_MISMATCH,
                 severity := "Medium",
                 affected_pilot_id := some p.id,
                 affected_pilot_name := some p.name,
                 affected_project_id := some project_id }]
            else [])

/-- Drone half of check_assignment_conflicts: maintenance status, overlap,
capability and location checks in source order. -/
def droneAssignmentChecks (drones : List Drone) (drone_id : Option String)
    (project_id : String) (start_date end_date : Nat)
    (required_caps : List String) (location : String) : List Conflict :=
  match drone_id with
  | none => []
  | some did =>
    if did == "" then []
    else
      match drones.find? (fun d => d.id == did) with
      | none => []
      | some d =>
        (if d.status == "Maintenance" then
          [{ conflict_type := ConflictType.DRONE_MAINTENANCE,
             severity := "Critical",
             affected_drone_id := some d.id,
             affected_drone_serial := some d.serial_number,
             affected_project_id := some project_id }]
        else [])
        ++ (match d.assignment_start_date, d.assignment_end_date with
            | some s, some e =>
              if dates_overlap s e start_date end_date then
                [{ conflict_type := ConflictType.DOUBLE_BOOKING_DRONE,
                   severity := "Critical",
                   affected_drone_id := some d.id,
                   affected_drone_serial := some d.serial_number,
                   affected_project_id := some project_id }]
              else []
            | _, _ => [])
        ++ (let missing := required_caps.filter (fun c => !(d.capabilities.contains c))
            if missing.isEmpty then []
            else
              [{ conflict_type := ConflictType.CAPABILITY_MISMATCH,
                 severity := "High",
                 affected_drone_id := some d.id,
                 affected_drone_serial := some d.serial_number,
                 affected_project_id := some project_id }])
        ++ (if location ≠ "" && lowerStr d.current_location ≠ lowerStr location then
              [{ conflict_type := ConflictType.LOCATION_MISMATCH,
                 severity := "Medium",
                 affected_drone_id := some d.id,
                 affected_drone_serial := some d.serial_number,
                 affected_project_id := some project_id }]
            else [])

/-- Pre-assignment validation check_assignment_conflicts: the pilot block
followed by the drone block. -/
def check_assignment_conflicts (pilots : List Pilot) (drones : List Drone)
    (pilot_id drone_id : Option String) (project_id : String)
    (start_date end_date : Nat) (required_certs required_caps : List String)
    (required_skill : String) (location : String) : List Conflict :=
  pilotAssignmentChecks pilots pilot_id project_id start_date end_date
      required_certs required_skill location
    ++ droneAssignmentChecks drones drone_id project_id start_date end_date
      required_caps location

/-- Concrete sample record used by witness theorems. -/
def pilotAna : Pilot :=
  { id := "P1", name := "Ana", skill_level := "Intermediate",
    certifications := [], current_location := "Pune",
    current_assignment := some "Alpha", assignment_start_date := some 20240301,
    assignment_end_date := some 20240310, status := "Assigned" }

/-- Concrete sample record used by witness theorems. -/
def projectBeta : Project :=
  { id := "PR2", name := "Beta", location := "Pune",
    start_date := some "2024-03-05", end_date := some "2024-03-15",
    assigned_pilots := ["P1"] }

/-- Concrete sample record used by witness theorems. -/
def droneScout : Drone :=
  { id := "D1", serial_number := "SN1", model := "M2",
    capabilities := [], current_location := "Pune", status := "Available",
    next_maintenance_date := some 20240615 }

/-- Concrete sample record used by witness theorems. -/
def projectSurvey : Project :=
  { id := "PR4", name := "Survey", location := "Pune",
    start_date := some "2024-06-01", end_date := some "2024-06-30",
    assigned_drones := ["D1"] }

/-- Concrete sample record used by witness theorems. -/
def maintMediumConflict : Conflict :=
  { conflict_type := ConflictType.DRONE_MAINTENANCE,
    severity := "Medium",
    affected_drone_id := some "D1",
    affected_drone_serial := some "SN1",
    affected_project_id := some "PR4",
    affected_project_name := some "Survey" }

/-- Concrete sample record used by witness theorems. -/
def projectRequiresAdvanced : Project :=
  { id := "PR5", name := "Thermal", location := "Pune",
    start_date := some "2024-05-01", end_date := some "2024-05-20",
    required_skill_level := some "Advanced", assigned_pilots := ["P1"] }

/-- Concrete sample record used by witness theorems. -/
def droneMumbai : Drone :=
  { id := "D2", serial_number := "SN2", model := "M3",
    capabilities := [], current_location := "Mumbai", status := "Available" }

/-- Concrete sample record used by witness theorems. -/
def projectPairLoc : Project :=
  { id := "PR6", name := "PairLoc", location := "pune",
    assigned_pilots := ["P1"], assigned_drones := ["D2"] }

/-- Concrete sample record used by witness theorems. -/
def pilotRiya : Pilot :=
  { id := "P2", name := "Riya", skill_level := "Intermediate",
    certifications := ["LIC"], current_location := "Pune",
    status := "Available" }

/-- Concrete sample record used by witness theorems. -/
def pilotSame1 : Pilot :=
  { id := "S1", name := "SameOne", skill_level := "Beginner",
    certifications := [], current_location := "Pune", status := "Available" }

/-- Concrete sample record used by witness theorems. -/
def pilotSame2 : Pilot :=
  { id := "S2", name := "SameTwo", skill_level := "Beginner",
    certifications := [], current_location := "Pune", status := "Available" }

/-- Concrete sample record used by witness theorems. -/
def droneSame1 : Drone :=
  { id := "T1", serial_number := "SNT1", model := "M1",
    capabilities := [], current_location := "Pune", status := "Available" }

/-- Concrete sample record used by witness theorems. -/
def droneSame2 : Drone :=
  { id := "T2", serial_number := "SNT2", model := "M1",
    capabilities := [], current_location := "Pune", status := "Available" }

theorem optFlatMap_inv {α β : Type} {f : α → Option (List β)} {c : β} :
    ∀ {xs : List α} {ys : List β}, optFlatMap f xs = some ys → c ∈ ys →
      ∃ x ∈ xs, ∃ zs, f x = some zs ∧ c ∈ zs := by
  intro xs
  induction xs with
  | nil =>
    intro ys h hc
    simp only [optFlatMap, Option.some.injEq] at h
    subst h
    cases hc
  | cons x xs ih =>
    intro ys h hc
    simp only [optFlatMap] at h
    cases hfx : f x with
    | none => rw [hfx] at h; cases h
    | some as =>
      rw [hfx] at h
      cases hr : optFlatMap f xs with
      | none => rw [hr] at h; cases h
      | some bs =>
        rw [hr] at h
        simp only [Option.some.injEq] at h
        subst h
        rcases List.mem_append.mp hc with hca | hcb
        · exact ⟨x, List.mem_cons_self x xs, as, hfx, hca⟩
        · rcases ih hr hcb with ⟨x1, hx1, zs, hzs, hcz⟩
          exact ⟨x1, List.mem_cons_of_mem x hx1, zs, hzs, hcz⟩

theorem optFlatMap_sub {α β : Type} {f : α → Option (List β)} {x : α} :
    ∀ {xs : List α} {ys : List β}, optFlatMap f xs = some ys → x ∈ xs →
      ∃ zs, f x = some zs ∧ ∀ c ∈ zs, c ∈ ys := by
  intro xs
  induction xs with
  | nil => intro ys _ hx; cases hx
  | cons y xs ih =>
    intro ys h hx
    simp only [optFlatMap] at h
    cases hfy : f y with
    | none => rw [hfy] at h; cases h
    | some as =>
      rw [hfy] at h
      cases hr : optFlatMap f xs with
      | none => rw [hr] at h; cases h
      | some bs =>
        rw [hr] at h
        simp only [Option.some.injEq] at h
        subst h
        rcases List.mem_cons.mp hx with rfl | hx1
        · exact ⟨as, hfy, fun c hc => List.mem_append.mpr (Or.inl hc)⟩
        · rcases ih hr hx1 with ⟨zs, hzs, hsub⟩
          exact ⟨zs, hzs, fun c hc => List.mem_append.mpr (Or.inr (hsub c hc))⟩

/-- C1: the overlap evaluator is true exactly when startA is at most endB and
endA is at least startB, and an interval pair touching at a single boundary
date counts as overlapping. -/
theorem overlap_evaluator_spec (startA endA startB endB : Nat)
    (hA : startA ≤ endA) (hB : startB ≤ endB) :
    (dates_overlap startA endA startB endB = true ↔ (startA ≤ endB ∧ endA ≥ startB))
    ∧ (endA = startB ∨ endB = startA → dates_overlap startA endA startB endB = true) := by
  constructor
  · simp [dates_overlap]
  · intro h
    simp only [dates_overlap, Bool.and_eq_true, decide_eq_true_eq, ge_iff_le]
    rcases h with h | h <;> omega

theorem overlap_evaluator_spec_witness :
    (20240101 ≤ 20240110 ∧ 20240110 ≤ 20240120) ∧
    dates_overlap 20240101 20240110 20240110 20240120 = true :=
  ⟨⟨by decide, by decide⟩,
    (overlap_evaluator_spec 20240101 20240110 20240110 20240120 (by decide)
      (by decide)).2 (Or.inl rfl)⟩

theorem pilotProjectDB_inv {p : Pilot} {a : String} {s e : Nat} {proj : Project}
    {ws : List Conflict} {c : Conflict}
    (h : pilotProjectDB p a s e proj = some ws) (hc : c ∈ ws) :
    c.affected_pilot_id = some p.id ∧ c.affected_pilot_name = some p.name ∧
      c.affected_project_name = some proj.name ∧ proj.name ≠ a := by
  unfold pilotProjectDB at h
  by_cases hname : proj.name == a
  · rw [if_pos hname] at h
    simp only [Option.some.injEq] at h
    subst h
    cases hc
  · rw [if_neg hname] at h
    have hne : proj.name ≠ a := by simpa using hname
    by_cases hmem : proj.assigned_pilots.contains p.id
    · rw [if_pos hmem] at h
      cases hs : strptimeField proj.start_date with
      | none => simp only [hs] at h; cases h
      | some ps =>
        cases he : strptimeField proj.end_date with
        | none => simp only [hs, he] at h; cases h
        | some pe =>
          simp only [hs, he] at h
          by_cases hov : dates_overlap s e ps pe = true
          · rw [if_pos hov] at h
            simp only [Option.some.injEq] at h
            subst h
            rcases List.mem_singleton.mp hc with rfl
            exact ⟨rfl, rfl, rfl, hne⟩
          · rw [if_neg hov] at h
            simp only [Option.some.injEq] at h
            subst h
            cases hc
    · rw [if_neg hmem] at h
      simp only [Option.some.injEq] at h
      subst h
      cases hc

theorem pilotDoubleBookings_inv {projects : List Project} {p : Pilot}
    {zs : List Conflict} {c : Conflict}
    (h : pilotDoubleBookings projects p = some zs) (hc : c ∈ zs) :
    c.affected_pilot_id = some p.id ∧ c.affected_pilot_name = some p.name ∧
      p.current_assignment ≠ c.affected_project_name := by
  unfold pilotDoubleBookings at h
  cases hca : p.current_assignment with
  | none => simp only [hca, Option.some.injEq] at h; subst h; cases hc
  | some a =>
    cases hsd : p.assignment_start_date with
    | none => simp only [hca, hsd, Option.some.injEq] at h; subst h; cases hc
    | some s =>
      cases hed : p.assignment_end_date with
      | none => simp only [hca, hsd, hed, Option.some.injEq] at h; subst h; cases hc
      | some e =>
        simp only [hca, hsd, hed] at h
        by_cases hblank : a == ""
        · rw [if_pos hblank] at h
          simp only [Option.some.injEq] at h
          subst h
          cases hc
        · rw [if_neg hblank] at h
          rcases optFlatMap_inv h hc with ⟨proj, _, ws, hws, hcw⟩
          rcases pilotProjectDB_inv hws hcw with ⟨h1, h2, h3, h4⟩
          refine ⟨h1, h2, ?_⟩
          rw [h3]
          intro hcontra
          exact h4 (by simpa using hcontra.symm)

/-- C2: a conflict emitted by the pilot double-booking rule always comes from
a pilot of the snapshot and always references a project whose name differs
from the recorded current assignment of that pilot. -/
theorem pilot_double_booking_no_self_conflict
    (pilots : List Pilot) (projects : List Project) (cs : List Conflict)
    (h : detect_pilot_double_bookings pilots projects = some cs)
    (c : Conflict) (hc : c ∈ cs) :
    ∃ p ∈ pilots, c.affected_pilot_id = some p.id ∧
      c.affected_pilot_name = some p.name ∧
      p.current_assignment ≠ c.affected_project_name := by
  rcases optFlatMap_inv h hc with ⟨p, hp, zs, hzs, hcz⟩
  rcases pilotDoubleBookings_inv hzs hcz with ⟨h1, h2, h3⟩
  exact ⟨p, hp, h1, h2, h3⟩

theorem pilot_double_booking_no_self_conflict_witness :
    (∃ cs, detect_pilot_double_bookings [pilotAna] [projectBeta] = some cs ∧
      ∃ c ∈ cs, ∃ p ∈ [pilotAna], c.affected_pilot_id = some p.id ∧
        c.affected_pilot_name = some p.name ∧
        p.current_assignment ≠ c.affected_project_name) := by
  refine ⟨[{ conflict_type := ConflictType.DOUBLE_BOOKING_PILOT,
             severity := "Critical",
             affected_pilot_id := some "P1",
             affected_pilot_name := some "Ana",
             affected_project_id := some "PR2",
             affected_project_name := some "Beta" }], by rfl, ?_⟩
  refine ⟨_, List.mem_singleton.mpr rfl, ?_⟩
  exact pilot_double_booking_no_self_conflict [pilotAna] [projectBeta] _ (by rfl) _
    (List.mem_singleton.mpr rfl)

/-- C5, evidence of the code defect: a project whose stored start date is
missing because the original string was unparseable (the parse layer stores
None) or whose stored date string itself does not parse, combined with an
assigned pilot holding a concurrent assignment, makes the double-booking
rule raise inside strptime, so the full sweep aborts instead of returning a
conflict list. -/
theorem malformed_project_date_aborts_sweep :
    detect_all_conflicts [pilotAna] []
      [{ id := "PR3", name := "Gamma", location := "Pune",
         start_date := none, end_date := some "2024-03-15",
         assigned_pilots := ["P1"] }] = none
    ∧ detect_all_conflicts [pilotAna] []
      [{ id := "PR3", name := "Gamma", location := "Pune",
         start_date := some "03/15/2024", end_date := some "2024-03-15",
         assigned_pilots := ["P1"] }] = none := ⟨by rfl, by rfl⟩

/-- C3: whenever a project lists a drone that exists in the snapshot and
carries a scheduled maintenance date inside the re-parsed project window
(inclusive at both ends), and the maintenance rule completes, it emits a
Medium Drone-in-Maintenance conflict for that drone and project; no
assumption is made about the drone status. -/
theorem drone_maintenance_window_rule
    (drones : List Drone) (projects : List Project) (cs : List Conflict)
    (proj : Project) (did : String) (d : Drone) (m ps pe : Nat)
    (hdet : detect_drone_maintenance_conflicts drones projects = some cs)
    (hproj : proj ∈ projects) (hdid : did ∈ proj.assigned_drones)
    (hfind : drones.find? (fun x => x.id == did) = some d)
    (hm : d.next_maintenance_date = some m)
    (hps : strptimeField proj.start_date = some ps)
    (hpe : strptimeField proj.end_date = some pe)
    (h1 : ps ≤ m) (h2 : m ≤ pe) :
    ∃ c ∈ cs, c.conflict_type = ConflictType.DRONE_MAINTENANCE ∧
      c.severity = "Medium" ∧ c.affected_drone_id = some d.id ∧
      c.affected_drone_serial = some d.serial_number ∧
      c.affected_project_id = some proj.id ∧
      c.affected_project_name = some proj.name := by
  rcases optFlatMap_sub hdet hproj with ⟨ys, hys, hsub1⟩
  rcases optFlatMap_sub hys hdid with ⟨zs, hzs, hsub2⟩
  unfold droneMaintCheck at hzs
  simp only [hfind, hm, hps, hpe] at hzs
  have hcond : (decide (ps ≤ m) && decide (m ≤ pe)) = true := by
    simp [h1, h2]
  rw [if_pos hcond] at hzs
  simp only [Option.some.injEq] at hzs
  subst hzs
  refine ⟨{ conflict_type := ConflictType.DRONE_MAINTENANCE,
            severity := "Medium",
            affected_drone_id := some d.id,
            affected_drone_serial := some d.serial_number,
            affected_project_id := some proj.id,
            affected_project_name := some proj.name }, ?_, rfl, rfl, rfl, rfl, rfl, rfl⟩
  refine hsub1 _ (hsub2 _ ?_)
  exact List.mem_append.mpr (Or.inr (List.mem_singleton.mpr rfl))

theorem drone_maintenance_window_rule_witness :
    detect_drone_maintenance_conflicts [droneScout] [projectSurvey] =
      some [maintMediumConflict]
    ∧ ∃ c ∈ [maintMediumConflict],
        c.conflict_type = ConflictType.DRONE_MAINTENANCE ∧
        c.severity = "Medium" ∧ c.affected_drone_id = some droneScout.id ∧
        c.affected_drone_serial = some droneScout.serial_number ∧
        c.affected_project_id = some projectSurvey.id ∧
        c.affected_project_name = some projectSurvey.name :=
  ⟨by rfl,
    drone_maintenance_window_rule [droneScout] [projectSurvey] _ projectSurvey "D1"
      droneScout 20240615 20240601 20240630 (by rfl) (by decide) (by decide)
      (by rfl) (by rfl) (by rfl) (by rfl) (by decide) (by decide)⟩

/-- C10: in the pre-assignment check, a supplied pilot id (respectively
drone id) that resolves to no record contributes nothing: the call still
returns exactly the conflicts of the other, resolvable half. -/
theorem unknown_reference_skipped_in_assignment_check
    (pilots : List Pilot) (drones : List Drone) (pilot_id drone_id : Option String)
    (project_id : String) (start_date end_date : Nat)
    (required_certs required_caps : List String)
    (required_skill location : String) :
    (∀ pid, pilot_id = some pid → pilots.find? (fun p => p.id == pid) = none →
      check_assignment_conflicts pilots drones pilot_id drone_id project_id
          start_date end_date required_certs required_caps required_skill location
        = droneAssignmentChecks drones drone_id project_id start_date end_date
            required_caps location)
    ∧ (∀ did, drone_id = some did → drones.find? (fun d => d.id == did) = none →
      check_assignment_conflicts pilots drones pilot_id drone_id project_id
          start_date end_date required_certs required_caps required_skill location
        = pilotAssignmentChecks pilots pilot_id project_id start_date end_date
            required_certs required_skill location) := by
  constructor
  · intro pid hpid hnone
    subst hpid
    simp only [check_assignment_conflicts, pilotAssignmentChecks]
    by_cases hb : pid == ""
    · rw [if_pos hb]
      simp
    · rw [if_neg hb, hnone]
      simp
  · intro did hdid hnone
    subst hdid
    simp only [check_assignment_conflicts, droneAssignmentChecks]
    by_cases hb : did == ""
    · rw [if_pos hb]
      simp
    · rw [if_neg hb, hnone]
      simp

theorem unknown_reference_skipped_in_assignment_check_witness :
    some "P9" = (some "P9" : Option String)
    ∧ ([pilotAna].find? (fun p => p.id == "P9") = none)
    ∧ check_assignment_conflicts [pilotAna] [droneScout] (some "P9") (some "D1")
        "PR4" 20240601 20240620 [] [] "Advanced" "Mumbai"
      = droneAssignmentChecks [droneScout] (some "D1") "PR4" 20240601 20240620
          [] "Mumbai"
    ∧ droneAssignmentChecks [droneScout] (some "D1") "PR4" 20240601 20240620
          [] "Mumbai"
      = [{ conflict_type := ConflictType.LOCATION_MISMATCH,
           severity := "Medium",
           affected_drone_id := some "D1",
           affected_drone_serial := some "SN1",
           affected_project_id := some "PR4" }] :=
  ⟨rfl, by rfl,
    (unknown_reference_skipped_in_assignment_check [pilotAna] [droneScout]
        (some "P9") (some "D1") "PR4" 20240601 20240620 [] [] "Advanced"
        "Mumbai").1 "P9" rfl (by rfl),
    by rfl⟩

/-- C4: the skill-mismatch rule fires for a pilot id and a project exactly
when the project carries a truthy required skill level, the id is listed on
the project and resolves in the snapshot, and the resolved pilot ranks
strictly below the requirement, with unknown level strings on either side
ranking 0; the emitted conflict is Medium. -/
theorem skill_mismatch_rule_iff
    (pilots : List Pilot) (proj : Project) (pid : String) :
    (∃ c ∈ skillConflictsForProject pilots proj,
        c.conflict_type = ConflictType.SKILL_MISMATCH ∧ c.severity = "Medium" ∧
        c.affected_pilot_id = some pid ∧ c.affected_project_id = some proj.id)
    ↔ ∃ rs, proj.required_skill_level = some rs ∧ rs ≠ "" ∧
        pid ∈ proj.assigned_pilots ∧
        ∃ p, pilots.find? (fun q => q.id == pid) = some p ∧
          skillIdx p.skill_level < skillIdx rs := by
  constructor
  · rintro ⟨c, hc, _, _, hcid, _⟩
    unfold skillConflictsForProject at hc
    cases hrs : proj.required_skill_level with
    | none => simp only [hrs] at hc; cases hc
    | some rs =>
      simp only [hrs] at hc
      by_cases hb : rs == ""
      · rw [if_pos hb] at hc; cases hc
      · rw [if_neg hb] at hc
        rcases List.mem_flatMap.mp hc with ⟨pid1, hpid1, hc2⟩
        cases hfind : pilots.find? (fun q => q.id == pid1) with
        | none => simp only [hfind] at hc2; cases hc2
        | some p =>
          simp only [hfind] at hc2
          by_cases hlt : skillIdx p.skill_level < skillIdx rs
          · rw [if_pos hlt] at hc2
            rcases List.mem_singleton.mp hc2 with rfl
            simp only [Option.some.injEq] at hcid
            have hpeq : p.id = pid1 := by
              simpa using List.find?_some hfind
            rw [hcid] at hpeq
            subst hpeq
            exact ⟨rs, rfl, by simpa using hb, hpid1, p, hfind, hlt⟩
          · rw [if_neg hlt] at hc2; cases hc2
  · rintro ⟨rs, hrs, hb, hmem, p, hfind, hlt⟩
    have hpeq : p.id = pid := by simpa using List.find?_some hfind
    refine ⟨{ conflict_type := ConflictType.SKILL_MISMATCH,
              severity := "Medium",
              affected_pilot_id := some p.id,
              affected_pilot_name := some p.name,
              affected_project_id := some proj.id,
              affected_project_name := some proj.name }, ?_, rfl, rfl, by rw [hpeq], rfl⟩
    unfold skillConflictsForProject
    simp only [hrs]
    rw [if_neg (show ¬(rs == "") = true by simpa using hb)]
    refine List.mem_flatMap.mpr ⟨pid, hmem, ?_⟩
    simp only [hfind]
    rw [if_pos hlt]
    exact List.mem_singleton.mpr rfl

theorem skill_mismatch_rule_iff_witness :
    (∃ c ∈ skillConflictsForProject [pilotAna] projectRequiresAdvanced,
        c.conflict_type = ConflictType.SKILL_MISMATCH ∧ c.severity = "Medium" ∧
        c.affected_pilot_id = some "P1" ∧
        c.affected_project_id = some projectRequiresAdvanced.id) :=
  (skill_mismatch_rule_iff [pilotAna] projectRequiresAdvanced "P1").mpr
    ⟨"Advanced", rfl, by decide, by decide, pilotAna, by rfl, by decide⟩

/-- C9: each of the three location sub-checks fires exactly when the two
locations differ after lowercasing, so a pair of locations differing only
in letter case never yields a location-mismatch conflict. -/
theorem location_checks_case_insensitive
    (pilots : List Pilot) (drones : List Drone) (proj : Project) (pid did : String) :
    ((∃ c ∈ pilotLocChecks pilots proj, c.affected_pilot_id = some pid)
      ↔ pid ∈ proj.assigned_pilots ∧
        ∃ p, pilots.find? (fun q => q.id == pid) = some p ∧
          lowerStr p.current_location ≠ lowerStr proj.location)
    ∧ ((∃ c ∈ droneLocChecks drones proj, c.affected_drone_id = some did)
      ↔ did ∈ proj.assigned_drones ∧
        ∃ d, drones.find? (fun q => q.id == did) = some d ∧
          lowerStr d.current_location ≠ lowerStr proj.location)
    ∧ ((∃ c ∈ pairLocChecks pilots drones proj,
          c.affected_pilot_id = some pid ∧ c.affected_drone_id = some did)
      ↔ pid ∈ proj.assigned_pilots ∧ did ∈ proj.assigned_drones ∧
        ∃ p d, pilots.find? (fun q => q.id == pid) = some p ∧
          drones.find? (fun q => q.id == did) = some d ∧
          lowerStr p.current_location ≠ lowerStr d.current_location) := by
  refine ⟨⟨?_, ?_⟩, ⟨?_, ?_⟩, ⟨?_, ?_⟩⟩
  · rintro ⟨c, hc, hcid⟩
    unfold pilotLocChecks at hc
    rcases List.mem_flatMap.mp hc with ⟨pid1, hpid1, hc2⟩
    cases hfind : pilots.find? (fun q => q.id == pid1) with
    | none => simp only [hfind] at hc2; cases hc2
    | some p =>
      simp only [hfind] at hc2
      by_cases hl : lowerStr p.current_location ≠ lowerStr proj.location
      · rw [if_pos hl] at hc2
        rcases List.mem_singleton.mp hc2 with rfl
        simp only [Option.some.injEq] at hcid
        have hpeq : p.id = pid1 := by simpa using List.find?_some hfind
        rw [hcid] at hpeq
        subst hpeq
        exact ⟨hpid1, p, hfind, hl⟩
      · rw [if_neg hl] at hc2; cases hc2
  · rintro ⟨hmem, p, hfind, hl⟩
    have hpeq : p.id = pid := by simpa using List.find?_some hfind
    refine ⟨{ conflict_type := ConflictType.LOCATION_MISMATCH,
              severity := "Medium",
              affected_pilot_id := some p.id,
              affected_pilot_name := some p.name,
              affected_project_id := some proj.id,
              affected_project_name := some proj.name }, ?_, by rw [hpeq]⟩
    unfold pilotLocChecks
    refine List.mem_flatMap.mpr ⟨pid, hmem, ?_⟩
    simp only [hfind]
    rw [if_pos hl]
    exact List.mem_singleton.mpr rfl
  · rintro ⟨c, hc, hcid⟩
    unfold droneLocChecks at hc
    rcases List.mem_flatMap.mp hc with ⟨did1, hdid1, hc2⟩
    cases hfind : drones.find? (fun q => q.id == did1) with
    | none => simp only [hfind] at hc2; cases hc2
    | some d =>
      simp only [hfind] at hc2
      by_cases hl : lowerStr d.current_location ≠ lowerStr proj.location
      · rw [if_pos hl] at hc2
        rcases List.mem_singleton.mp hc2 with rfl
        simp only [Option.some.injEq] at hcid
        have hdeq : d.id = did1 := by simpa using List.find?_some hfind
        rw [hcid] at hdeq
        subst hdeq
        exact ⟨hdid1, d, hfind, hl⟩
      · rw [if_neg hl] at hc2; cases hc2
  · rintro ⟨hmem, d, hfind, hl⟩
    have hdeq : d.id = did := by simpa using List.find?_some hfind
    refine ⟨{ conflict_type := ConflictType.LOCATION_MISMATCH,
              severity := "Medium",
              affected_drone_id := some d.id,
              affected_drone_serial := some d.serial_number,
              affected_project_id := some proj.id,
              affected_project_name := some proj.name }, ?_, by rw [hdeq]⟩
    unfold droneLocChecks
    refine List.mem_flatMap.mpr ⟨did, hmem, ?_⟩
    simp only [hfind]
    rw [if_pos hl]
    exact List.mem_singleton.mpr rfl
  · rintro ⟨c, hc, hcpid, hcdid⟩
    unfold pairLocChecks at hc
    rcases List.mem_flatMap.mp hc with ⟨pid1, hpid1, hc2⟩
    cases hfp : pilots.find? (fun q => q.id == pid1) with
    | none => simp only [hfp] at hc2; cases hc2
    | some p =>
      simp only [hfp] at hc2
      rcases List.mem_flatMap.mp hc2 with ⟨did1, hdid1, hc3⟩
      cases hfd : drones.find? (fun q => q.id == did1) with
      | none => simp only [hfd] at hc3; cases hc3
      | some d =>
        simp only [hfd] at hc3
        by_cases hl : lowerStr p.current_location ≠ lowerStr d.current_location
        · rw [if_pos hl] at hc3
          rcases List.mem_singleton.mp hc3 with rfl
          simp only [Option.some.injEq] at hcpid hcdid
          have hpeq : p.id = pid1 := by simpa using List.find?_some hfp
          have hdeq : d.id = did1 := by simpa using List.find?_some hfd
          rw [hcpid] at hpeq
          rw [hcdid] at hdeq
          subst hpeq
          subst hdeq
          exact ⟨hpid1, hdid1, p, d, hfp, hfd, hl⟩
        · rw [if_neg hl] at hc3; cases hc3
  · rintro ⟨hpmem, hdmem, p, d, hfp, hfd, hl⟩
    have hpeq : p.id = pid := by simpa using List.find?_some hfp
    have hdeq : d.id = did := by simpa using List.find?_some hfd
    refine ⟨{ conflict_type := ConflictType.LOCATION_MISMATCH,
              severity := "High",
              affected_pilot_id := some p.id,
              affected_pilot_name := some p.name,
              affected_drone_id := some d.id,
              affected_drone_serial := some d.serial_number,
              affected_project_id := some proj.id,
              affected_project_name := some proj.name }, ?_, by rw [hpeq], by rw [hdeq]⟩
    unfold pairLocChecks
    refine List.mem_flatMap.mpr ⟨pid, hpmem, ?_⟩
    simp only [hfp]
    refine List.mem_flatMap.mpr ⟨did, hdmem, ?_⟩
    simp only [hfd]
    rw [if_pos hl]
    exact List.mem_singleton.mpr rfl

theorem location_checks_case_insensitive_witness :
    (¬ ∃ c ∈ pilotLocChecks [pilotAna] projectPairLoc,
        c.affected_pilot_id = some "P1")
    ∧ (∃ c ∈ pairLocChecks [pilotAna] [droneMumbai] projectPairLoc,
        c.affected_pilot_id = some "P1" ∧ c.affected_drone_id = some "D2") := by
  constructor
  · intro hex
    have h := (location_checks_case_insensitive [pilotAna] [droneMumbai]
      projectPairLoc "P1" "D2").1.mp hex
    rcases h with ⟨_, p, hfind, hl⟩
    have hp : p = pilotAna := by
      have := hfind
      simp [pilotAna] at this
      exact this.symm
    subst hp
    exact hl (by decide)
  · exact (location_checks_case_insensitive [pilotAna] [droneMumbai]
      projectPairLoc "P1" "D2").2.2.mpr
      ⟨by decide, by decide, pilotAna, droneMumbai, by rfl, by rfl, by decide⟩

theorem scorePilotCandidate_eval (rc : List String) (rs : String)
    (pl : Option String) (p : Pilot) :
    (scorePilotCandidate rc rs pl p).pilot = p
    ∧ (scorePilotCandidate rc rs pl p).score =
        (if (rc.filter (fun x => !(p.certifications.contains x))).isEmpty
          then 30 else 0)
      + (if skillIdx rs ≤ skillIdx p.skill_level then 25 else 0)
      + (if strFalsy pl = false
            ∧ lowerStr p.current_location = lowerStr (pl.getD "") then 25 else 0)
      + 5 * skillIdx p.skill_level
    ∧ ((scorePilotCandidate rc rs pl p).recommended = true
        ↔ (scorePilotCandidate rc rs pl p).issues = [])
    ∧ ((scorePilotCandidate rc rs pl p).issues = []
        ↔ ((rc.filter (fun x => !(p.certifications.contains x))).isEmpty = true
          ∧ skillIdx rs ≤ skillIdx p.skill_level
          ∧ (strFalsy pl = false →
              lowerStr p.current_location = lowerStr (pl.getD "")))) := by
  by_cases hm : (rc.filter (fun x => !(p.certifications.contains x))).isEmpty
  <;> by_cases hsk : skillIdx rs ≤ skillIdx p.skill_level
  <;> by_cases hg : strFalsy pl = false
  <;> by_cases hmatch : lowerStr p.current_location = lowerStr (pl.getD "")
  <;> simp [scorePilotCandidate, hm, hsk, hg, hmatch, Nat.mul_comm]

/-- C6: every candidate in the ranked pilot output passed the filter
(Available status, not the excluded id) and carries exactly the specified
score: 30 for no missing required certification, 25 for sufficient skill
rank, 25 for a given and case-insensitively matching preferred location,
plus five times the zero-based skill rank; its recommended flag is true
exactly when its issue list is empty, and that list is empty exactly when
no component raised an issue. -/
theorem pilot_candidate_scoring_spec
    (required_certs : List String) (required_skill : String)
    (preferred_location exclude_pilot_id : Option String) (pool : List Pilot)
    (c : PilotCandidate)
    (hc : c ∈ rankPilotCandidates required_certs required_skill
      preferred_location exclude_pilot_id pool) :
    c.pilot.status = "Available"
    ∧ (∀ ex, exclude_pilot_id = some ex → c.pilot.id ≠ ex)
    ∧ c.score =
        (if (required_certs.filter (fun x => !(c.pilot.certifications.contains x))).isEmpty
          then 30 else 0)
      + (if skillIdx required_skill ≤ skillIdx c.pilot.skill_level then 25 else 0)
      + (if strFalsy preferred_location = false
            ∧ lowerStr c.pilot.current_location
              = lowerStr (preferred_location.getD "") then 25 else 0)
      + 5 * skillIdx c.pilot.skill_level
    ∧ (c.recommended = true ↔ c.issues = [])
    ∧ (c.issues = []
        ↔ ((required_certs.filter
              (fun x => !(c.pilot.certifications.contains x))).isEmpty = true
          ∧ skillIdx required_skill ≤ skillIdx c.pilot.skill_level
          ∧ (strFalsy preferred_location = false →
              lowerStr c.pilot.current_location
                = lowerStr (preferred_location.getD "")))) := by
  have hc1 : c ∈ (pilotCandidateList required_certs required_skill
      preferred_location exclude_pilot_id pool).mergeSort pilotCandLE :=
    List.mem_of_mem_take hc
  have hc2 : c ∈ pilotCandidateList required_certs required_skill
      preferred_location exclude_pilot_id pool :=
    (List.mergeSort_perm _ pilotCandLE).mem_iff.mp hc1
  unfold pilotCandidateList at hc2
  rcases List.mem_map.mp hc2 with ⟨p, hpmem, rfl⟩
  rcases List.mem_filter.mp hpmem with ⟨_, hkeep⟩
  unfold pilotKeep at hkeep
  rw [Bool.and_eq_true] at hkeep
  rcases hkeep with ⟨hex, hst⟩
  rcases scorePilotCandidate_eval required_certs required_skill
    preferred_location p with ⟨hpil, hscore, hrec, hiss⟩
  rw [hpil]
  refine ⟨by simpa using hst, ?_, hscore, hrec, hiss⟩
  intro ex hx
  rw [hx] at hex
  simpa using hex

theorem pilot_candidate_scoring_spec_witness :
    (scorePilotCandidate ["LIC"] "Advanced" (some "Pune") pilotRiya
        ∈ rankPilotCandidates ["LIC"] "Advanced" (some "Pune") none [pilotRiya])
    ∧ (scorePilotCandidate ["LIC"] "Advanced" (some "Pune") pilotRiya).pilot.status
        = "Available" := by
  have h1 : pilotCandidateList ["LIC"] "Advanced" (some "Pune") none [pilotRiya]
      = [scorePilotCandidate ["LIC"] "Advanced" (some "Pune") pilotRiya] := by
    decide
  have hmem : scorePilotCandidate ["LIC"] "Advanced" (some "Pune") pilotRiya
      ∈ rankPilotCandidates ["LIC"] "Advanced" (some "Pune") none [pilotRiya] := by
    unfold rankPilotCandidates
    rw [h1, List.mergeSort_singleton]
    simp
  exact ⟨hmem, (pilot_candidate_scoring_spec ["LIC"] "Advanced" (some "Pune")
    none [pilotRiya] _ hmem).1⟩

/-- C7: granting a pilot one required certification that was missing, while
keeping every other attribute and certification, never lowers the score the
replacement scorer computes for that pilot. -/
theorem pilot_score_monotone_in_certifications
    (required_certs : List String) (required_skill : String)
    (preferred_location : Option String) (p : Pilot) (cert : String)
    (hreq : cert ∈ required_certs) (hmiss : cert ∉ p.certifications) :
    (scorePilotCandidate required_certs required_skill preferred_location p).score ≤
    (scorePilotCandidate required_certs required_skill preferred_location
      { p with certifications := cert :: p.certifications }).score := by
  obtain ⟨pid, pname, psk, pcerts, ploc, pca, pasd, paed, pst⟩ := p
  rcases scorePilotCandidate_eval required_certs required_skill preferred_location
    ⟨pid, pname, psk, pcerts, ploc, pca, pasd, paed, pst⟩ with ⟨_, hs1, _, _⟩
  rcases scorePilotCandidate_eval required_certs required_skill preferred_location
    ⟨pid, pname, psk, cert :: pcerts, ploc, pca, pasd, paed, pst⟩ with ⟨_, hs2, _, _⟩
  rw [hs1, hs2]
  have hne : (required_certs.filter (fun x => !(pcerts.contains x))).isEmpty = false := by
    rw [List.isEmpty_eq_false]
    intro hnil
    have hmemf : cert ∈ required_certs.filter (fun x => !(pcerts.contains x)) := by
      rw [List.mem_filter]
      refine ⟨hreq, ?_⟩
      simpa using hmiss
    rw [hnil] at hmemf
    cases hmemf
  simp
  split_ifs with h1 h2 <;>
    first
      | omega
      | exact absurd (h1 cert hreq) (by simpa using hmiss)

theorem pilot_score_monotone_in_certifications_witness :
    ("LIC" ∈ ["LIC"] ∧ "LIC" ∉ pilotAna.certifications)
    ∧ (scorePilotCandidate ["LIC"] "Advanced" (some "Pune") pilotAna).score ≤
      (scorePilotCandidate ["LIC"] "Advanced" (some "Pune")
        { pilotAna with certifications := "LIC" :: pilotAna.certifications }).score :=
  ⟨⟨by decide, by decide⟩,
    pilot_score_monotone_in_certifications ["LIC"] "Advanced" (some "Pune")
      pilotAna "LIC" (by decide) (by decide)⟩

theorem pilotCandLE_trans (a b c : PilotCandidate) :
    pilotCandLE a b = true → pilotCandLE b c = true → pilotCandLE a c = true := by
  simp only [pilotCandLE, decide_eq_true_eq]
  omega

theorem pilotCandLE_total (a b : PilotCandidate) :
    (pilotCandLE a b || pilotCandLE b a) = true := by
  simp only [pilotCandLE, Bool.or_eq_true, decide_eq_true_eq]
  omega

theorem droneCandLE_trans (a b c : DroneCandidate) :
    droneCandLE a b = true → droneCandLE b c = true → droneCandLE a c = true := by
  simp only [droneCandLE, decide_eq_true_eq]
  omega

theorem droneCandLE_total (a b : DroneCandidate) :
    (droneCandLE a b || droneCandLE b a) = true := by
  simp only [droneCandLE, Bool.or_eq_true, decide_eq_true_eq]
  omega

/-- C8: both ranked candidate lists come out sorted by descending score,
hold at most five entries, and the sort is stable: any two candidates in
pool order whose scores permit it remain in that order in the sorted
list. -/
theorem ranking_sorted_stable_truncated
    (required_certs : List String) (required_skill : String)
    (preferred_location exclude_pilot_id : Option String) (pool : List Pilot)
    (required_caps : List String)
    (dpreferred_location dexclude_drone_id : Option String) (dpool : List Drone) :
    (rankPilotCandidates required_certs required_skill preferred_location
        exclude_pilot_id pool).Pairwise (fun a b => b.score ≤ a.score)
    ∧ (rankPilotCandidates required_certs required_skill preferred_location
        exclude_pilot_id pool).length ≤ 5
    ∧ (∀ a b, b.score ≤ a.score →
        [a, b].Sublist (pilotCandidateList required_certs required_skill
          preferred_location exclude_pilot_id pool) →
        [a, b].Sublist ((pilotCandidateList required_certs required_skill
          preferred_location exclude_pilot_id pool).mergeSort pilotCandLE))
    ∧ (rankDroneCandidates required_caps dpreferred_location dexclude_drone_id
        dpool).Pairwise (fun a b => b.score ≤ a.score)
    ∧ (rankDroneCandidates required_caps dpreferred_location dexclude_drone_id
        dpool).length ≤ 5
    ∧ (∀ a b, b.score ≤ a.score →
        [a, b].Sublist (droneCandidateList required_caps dpreferred_location
          dexclude_drone_id dpool) →
        [a, b].Sublist ((droneCandidateList required_caps dpreferred_location
          dexclude_drone_id dpool).mergeSort droneCandLE)) := by
  refine ⟨?_, ?_, ?_, ?_, ?_, ?_⟩
  · have hs := List.sorted_mergeSort pilotCandLE_trans pilotCandLE_total
      (pilotCandidateList required_certs required_skill preferred_location
        exclude_pilot_id pool)
    have hp := List.Pairwise.sublist (List.take_sublist 5 _) hs
    exact hp.imp (fun h => by simpa [pilotCandLE] using h)
  · unfold rankPilotCandidates
    rw [List.length_take]
    exact Nat.min_le_left _ _
  · intro a b hle hsub
    exact List.pair_sublist_mergeSort pilotCandLE_trans pilotCandLE_total
      (by simpa [pilotCandLE] using hle) hsub
  · have hs := List.sorted_mergeSort droneCandLE_trans droneCandLE_total
      (droneCandidateList required_caps dpreferred_location dexclude_drone_id dpool)
    have hp := List.Pairwise.sublist (List.take_sublist 5 _) hs
    exact hp.imp (fun h => by simpa [droneCandLE] using h)
  · unfold rankDroneCandidates
    rw [List.length_take]
    exact Nat.min_le_left _ _
  · intro a b hle hsub
    exact List.pair_sublist_mergeSort droneCandLE_trans droneCandLE_total
      (by simpa [droneCandLE] using hle) hsub

theorem ranking_sorted_stable_truncated_witness :
    ((scorePilotCandidate [] "Beginner" none pilotSame2).score
      ≤ (scorePilotCandidate [] "Beginner" none pilotSame1).score)
    ∧ [scorePilotCandidate [] "Beginner" none pilotSame1,
       scorePilotCandidate [] "Beginner" none pilotSame2].Sublist
        ((pilotCandidateList [] "Beginner" none none
          [pilotSame1, pilotSame2]).mergeSort pilotCandLE)
    ∧ (rankPilotCandidates [] "Beginner" none none
        [pilotSame1, pilotSame2]).length ≤ 5
    ∧ ((scoreDroneCandidate [] none droneSame2).score
      ≤ (scoreDroneCandidate [] none droneSame1).score)
    ∧ [scoreDroneCandidate [] none droneSame1,
       scoreDroneCandidate [] none droneSame2].Sublist
        ((droneCandidateList [] none none
          [droneSame1, droneSame2]).mergeSort droneCandLE)
    ∧ (rankDroneCandidates [] none none [droneSame1, droneSame2]).length ≤ 5 := by
  have hclp : pilotCandidateList [] "Beginner" none none [pilotSame1, pilotSame2]
      = [scorePilotCandidate [] "Beginner" none pilotSame1,
         scorePilotCandidate [] "Beginner" none pilotSame2] := by decide
  have hcld : droneCandidateList [] none none [droneSame1, droneSame2]
      = [scoreDroneCandidate [] none droneSame1,
         scoreDroneCandidate [] none droneSame2] := by decide
  have hsubp : [scorePilotCandidate [] "Beginner" none pilotSame1,
      scorePilotCandidate [] "Beginner" none pilotSame2].Sublist
        (pilotCandidateList [] "Beginner" none none [pilotSame1, pilotSame2]) := by
    rw [hclp]
  have hsubd : [scoreDroneCandidate [] none droneSame1,
      scoreDroneCandidate [] none droneSame2].Sublist
        (droneCandidateList [] none none [droneSame1, droneSame2]) := by
    rw [hcld]
  have h := ranking_sorted_stable_truncated [] "Beginner" none none
    [pilotSame1, pilotSame2] [] none none [droneSame1, droneSame2]
  exact ⟨by decide, h.2.2.1 _ _ (by decide) hsubp, h.2.1,
    by decide, h.2.2.2.2.2 _ _ (by decide) hsubd, h.2.2.2.2.1⟩

end Skylark
